import Mathlib

/-!
Verification development for the municipal-flag NFT marketplace frontend
(React/Redux client). The definitions below are shallow embeddings of the
client-side logic found in the repository sources:

- `AuctionDetail.jsx` (bid validation, buyout/bid gating, time-ended state,
  highest-bid marking, starting-price fallback);
- `Auctions.jsx` (auction list card current-bid display);
- the flag detail pages and `FlagCard` component (reveal gate, acquisition
  action gating, multi-NFT pricing);
- the admin store slice (pending/fulfilled/rejected reducers).

Modelling conventions:
- JavaScript null/undefined values are `Option`; the optional-chaining
  operator `x?.f` is `Option.bind`/`Option.map`, and `===` between two
  possibly-undefined operands is `Option` equality (undefined === undefined
  is true in JavaScript, which the embedding preserves deliberately).
- Numeric fields arriving as decimal strings are carried by their exact
  rational value; where a claim depends on the binary floating-point
  evaluation actually performed by JavaScript, the IEEE-754 binary64
  round-to-nearest-even semantics is embedded explicitly (namespace `FP`),
  restricted to the normal range, which covers every price occurring here.
- The JavaScript falsy test on a number (`x || d`, `x && ...`) treats 0 and
  null/undefined as falsy; helpers `jsOrQ`, `jsOrNat`, `jsTruthyQ` embed it.
-/

namespace NFTFlags

/-- Model of the JavaScript expression `s?.toLowerCase()` on a possibly
null/undefined string: absent stays absent, present strings are lower-cased. -/
def optLower (s : Option String) : Option String := s.map String.toLower

/-- JavaScript `v || d` for a possibly absent number `v`: null/undefined and 0
are falsy and fall back to `d`. -/
def jsOrQ (v : Option ℚ) (d : ℚ) : ℚ :=
  match v with
  | none => d
  | some x => if x = 0 then d else x

/-- JavaScript `v || d` for a possibly absent nonnegative integer field
(used for `flag.nfts_required || 1`). -/
def jsOrNat (v : Option ℕ) (d : ℕ) : ℕ :=
  match v with
  | none => d
  | some x => if x = 0 then d else x

/-- JavaScript truthiness of a possibly absent number (used for
`auction.buyout_price && ...` render guards). -/
def jsTruthyQ (v : Option ℚ) : Bool :=
  match v with
  | none => false
  | some x => decide (x ≠ 0)

namespace FP

/-- Round the nonnegative rational `a / b` to the nearest integer, ties to
even (`b > 0` assumed at call sites). -/
def rdiv (a b : ℕ) : ℕ :=
  let q := a / b
  let r := a % b
  if 2 * r < b then q
  else if b < 2 * r then q + 1
  else if q % 2 = 0 then q else q + 1

/-- Scale the fraction `a / b` up by powers of two (tracking the exponent)
until `a / b ≥ 2 ^ 52`; fuel-bounded, which is ample for every binary64
normal exponent. -/
def normUp : ℕ → ℕ → ℕ → ℤ → ℕ × ℕ × ℤ
  | 0, a, b, e => (a, b, e)
  | f + 1, a, b, e => if a < 2 ^ 52 * b then normUp f (2 * a) b (e - 1) else (a, b, e)

/-- Scale the fraction `a / b` down by powers of two (tracking the exponent)
until `a / b < 2 ^ 53`; fuel-bounded. -/
def normDown : ℕ → ℕ → ℕ → ℤ → ℕ × ℕ × ℤ
  | 0, a, b, e => (a, b, e)
  | f + 1, a, b, e => if 2 ^ 53 * b ≤ a then normDown f a (2 * b) (e + 1) else (a, b, e)

/-- Correctly round the positive rational `a / b` to IEEE-754 binary64
(round to nearest, ties to even), returned as a mantissa/exponent pair
`(m, e)` denoting `m * 2 ^ e` with `2 ^ 52 ≤ m < 2 ^ 53`. Valid on the
normal range, which covers all prices in this repository. -/
def roundPos (a b : ℕ) : ℕ × ℤ :=
  let u := normUp 1200 a b 0
  let v := normDown 1200 u.1 u.2.1 u.2.2
  let m := rdiv v.1 v.2.1
  if m = 2 ^ 53 then (2 ^ 52, v.2.2 + 1) else (m, v.2.2)

/-- Model of JavaScript `parseFloat` applied to a decimal numeral whose exact
value is `a / b`: the nearest binary64 value, as a mantissa/exponent pair. -/
def parseFloatPos (a b : ℕ) : ℕ × ℤ := roundPos a b

/-- Model of the JavaScript binary64 multiplication `x * n` for a double `x`
(given as a mantissa/exponent pair) and a small nonnegative integer `n`
(exactly representable): the exact product rounded back to binary64. -/
def jsMulPosNat (p : ℕ × ℤ) (n : ℕ) : ℕ × ℤ :=
  let r := roundPos (p.1 * n) 1
  (r.1, r.2 + p.2)

/-- Exact power of two as a rational, for reading back mantissa/exponent
pairs. -/
def qpow2 (e : ℤ) : ℚ := if 0 ≤ e then (2 : ℚ) ^ e.toNat else ((1 : ℚ) / 2) ^ (-e).toNat

/-- The exact rational value denoted by a mantissa/exponent pair. -/
def ratOfPair (p : ℕ × ℤ) : ℚ := (p.1 : ℚ) * qpow2 p.2

end FP

namespace FlagCard

/-- Embedding of the `FlagCard` total price computation:
`const nftsRequired = flag.nfts_required || 1;`
`const totalPrice = parseFloat(flag.price) * nftsRequired;`
The price string is given by its exact decimal value `priceNum / priceDen`;
`parseFloat` and `*` are evaluated in binary64 as JavaScript does. -/
def totalPrice (priceNum priceDen : ℕ) (nfts_required : Option ℕ) : ℚ :=
  FP.ratOfPair (FP.jsMulPosNat (FP.parseFloatPos priceNum priceDen) (jsOrNat nfts_required 1))

end FlagCard

namespace FlagDetail

/-- Embedding of the flag detail page total base price:
`const basePricePerNft = parseFloat(flag.price);`
`const totalBasePrice = basePricePerNft * nftsRequired;`
evaluated in binary64 as JavaScript does. -/
def totalBasePrice (priceNum priceDen : ℕ) (nfts_required : Option ℕ) : ℚ :=
  FP.ratOfPair (FP.jsMulPosNat (FP.parseFloatPos priceNum priceDen) (jsOrNat nfts_required 1))

end FlagDetail

/-- Spec-side definition for comparison, following the words of spec section
4.1: `computeTotal(unitPrice, nftsRequired) = unitPrice * nftsRequired`,
evaluated in exact decimal (non-floating) arithmetic. -/
def computeTotalSpec (unitPrice : ℚ) (n : ℕ) : ℚ := unitPrice * n

/-- A user record as joined into interest/ownership rows; the wallet address
may itself be absent in the payload. -/
structure UserRef where
  wallet_address : Option String
  deriving DecidableEq

/-- One entry of `flag.interests`; the joined `user` object may be absent. -/
structure InterestEntry where
  user : Option UserRef
  deriving DecidableEq

/-- One entry of `flag.ownerships`. -/
structure OwnershipEntry where
  user : Option UserRef
  ownership_type : Option String
  deriving DecidableEq

/-- The server-reported flag fields consumed by the reveal gate and the
acquisition action gating of the flag detail pages. -/
structure Flag where
  is_pair_complete : Bool
  first_nft_status : Option String
  second_nft_status : Option String
  interests : Option (List InterestEntry)
  ownerships : Option (List OwnershipEntry)
  deriving DecidableEq

/-- Model of the JavaScript chain `u?.wallet_address?.toLowerCase()`. -/
def chainWalletLower (u : Option UserRef) : Option String :=
  (u.bind UserRef.wallet_address).map String.toLower

/-- Embedding of `isRevealed` from the gated flag detail page:
pair complete reveals to everyone; otherwise the flag is revealed when
`flag.interests?.some(i => i.user?.wallet_address?.toLowerCase() ===
address?.toLowerCase())` holds, then likewise over `flag.ownerships`;
otherwise hidden. An absent interests/ownerships list is falsy. -/
def isRevealed (flag : Flag) (address : Option String) : Bool :=
  if flag.is_pair_complete then true
  else if (flag.interests.getD []).any
      (fun i => chainWalletLower i.user == optLower address) then true
  else if (flag.ownerships.getD []).any
      (fun o => chainWalletLower o.user == optLower address) then true
  else false

/-- The four acquisition states of spec section 4.3. -/
inductive AcqState where
  | COMPLETE
  | FIRST_OPEN
  | SECOND_OPEN
  | BLOCKED
  deriving DecidableEq

/-- Spec-side definition for comparison, following the words of spec section
4.3: the acquisition state table evaluated top to bottom, first match wins. -/
def specAcqState (pc : Bool) (first second : Option String) : AcqState :=
  if pc then .COMPLETE
  else if first = some "available" then .FIRST_OPEN
  else if first = some "claimed" ∧ second = some "available" then .SECOND_OPEN
  else .BLOCKED

/-- Embedding of the actions block of the flag detail pages: the
show-interest/claim-first action set is rendered under
`!flag.is_pair_complete` and `flag.first_nft_status === 'available'`. -/
def showsFirstActionSet (f : Flag) : Bool :=
  !f.is_pair_complete && f.first_nft_status == some "available"

/-- Embedding of the actions block: the purchase-second button is rendered
under `!flag.is_pair_complete`, `flag.first_nft_status === 'claimed'` and
`flag.second_nft_status === 'available'`. -/
def showsPurchaseSecond (f : Flag) : Bool :=
  !f.is_pair_complete && f.first_nft_status == some "claimed"
    && f.second_nft_status == some "available"

/-- Embedding of the actions block: the pair-completed notice is rendered
under `flag.is_pair_complete`. -/
def showsPairCompleteNotice (f : Flag) : Bool := f.is_pair_complete

/-- Embedding of the show-interest button inside the first action set, which
is additionally suppressed once the viewer already registered interest. -/
def showsInterestButton (f : Flag) (hasUserInterest : Bool) : Bool :=
  showsFirstActionSet f && !hasUserInterest

/-- The admin store slice state (adminSlice). Opaque server payloads (stats,
countries, IPFS status) are modelled as strings. -/
structure AdminState where
  authenticated : Bool
  adminKey : Option String
  stats : Option String
  countries : List String
  ipfsStatus : Option String
  loading : Bool
  message : Option String
  error : Option String
  deriving DecidableEq

/-- The initial admin slice state. -/
def adminInitialState : AdminState :=
  { authenticated := false, adminKey := none, stats := none, countries := []
    ipfsStatus := none, loading := false, message := none, error := none }

/-- Reducer for `authenticate.pending`: sets `loading`, clears `error`. -/
def authenticatePending (s : AdminState) : AdminState :=
  { s with loading := true, error := none }

/-- Reducer for `authenticate.fulfilled`. -/
def authenticateFulfilled (s : AdminState) (adminKey stats : String) : AdminState :=
  { s with loading := false, authenticated := true
           adminKey := some adminKey, stats := some stats }

/-- Reducer for `authenticate.rejected`: clears `loading`, records the
rejection payload as `error`. -/
def authenticateRejected (s : AdminState) (e : String) : AdminState :=
  { s with loading := false, error := some e }

/-- Reducer for `seedDemoData.pending`: sets `loading`, clears `message`
(and only `message`). -/
def seedDemoDataPending (s : AdminState) : AdminState :=
  { s with loading := true, message := none }

/-- Reducer for `seedDemoData.fulfilled`. -/
def seedDemoDataFulfilled (s : AdminState) (msg : String) : AdminState :=
  { s with loading := false, message := some msg }

/-- Reducer for `seedDemoData.rejected`. -/
def seedDemoDataRejected (s : AdminState) (e : String) : AdminState :=
  { s with loading := false, error := some e }

/-- Reducer for `syncIpfsFromPinata.pending`: sets `loading`, clears
`message` (and only `message`). -/
def syncIpfsFromPinataPending (s : AdminState) : AdminState :=
  { s with loading := true, message := none }

/-- Reducer for `syncIpfsFromPinata.fulfilled`. -/
def syncIpfsFromPinataFulfilled (s : AdminState) (msg : String) : AdminState :=
  { s with loading := false, message := some msg }

/-- Reducer for `syncIpfsFromPinata.rejected`. -/
def syncIpfsFromPinataRejected (s : AdminState) (e : String) : AdminState :=
  { s with loading := false, error := some e }

/-- The seller object attached to an auction. -/
structure Seller where
  wallet_address : Option String
  deriving DecidableEq

/-- One bid row of the auction bid history. -/
structure Bid where
  id : ℕ
  amount : ℚ
  bidder_category : Option String
  bidder_id : ℤ
  deriving DecidableEq

/-- The server-reported auction fields consumed by the auction detail page
and the auctions list card. Numeric strings are carried as their exact
rational values; `ends_at` and `now` are epoch milliseconds. -/
structure Auction where
  id : ℕ
  flag_id : ℕ
  status : String
  starting_price : ℚ
  min_price : ℚ
  buyout_price : Option ℚ
  current_highest_bid : Option ℚ
  highest_bidder_id : Option ℤ
  ends_at : ℤ
  seller : Option Seller
  bids : List Bid
  deriving DecidableEq

/-- Embedding of `const timeRemaining = new Date(auction.ends_at) - new Date()`. -/
def timeRemaining (a : Auction) (now : ℤ) : ℤ := a.ends_at - now

/-- Embedding of `const isEnded = timeRemaining <= 0 || auction.status !== 'active'`. -/
def isEnded (a : Auction) (now : ℤ) : Bool :=
  decide (timeRemaining a now ≤ 0) || (a.status != "active")

/-- Embedding of `const isSeller = address?.toLowerCase() ===
auction.seller?.wallet_address?.toLowerCase()`. Undefined equals undefined
in JavaScript, which the `Option` equality preserves. -/
def isSeller (a : Auction) (address : Option String) : Bool :=
  optLower address == optLower (a.seller.bind Seller.wallet_address)

/-- Embedding of `const currentHighestBid = auction.current_highest_bid ||
auction.starting_price`. -/
def currentHighestBid (a : Auction) : ℚ :=
  jsOrQ a.current_highest_bid a.starting_price

/-- Embedding of `const minBidAmount = Math.max(parseFloat(auction.min_price),
parseFloat(currentHighestBid) + 0.001)`, over exact rationals. -/
def minBidAmount (a : Auction) : ℚ :=
  max a.min_price (currentHighestBid a + 1 / 1000)

/-- Embedding of the current-bid cell of the auctions list card
(`config.formatPrice(auction.current_highest_bid || auction.starting_price)`):
the value handed to the price formatter. -/
def auctionCardCurrentBid (a : Auction) : ℚ :=
  jsOrQ a.current_highest_bid a.starting_price

/-- Embedding of the buyout section render guard of the auction detail page:
`!isEnded && auction.status === 'active' && auction.buyout_price && !isSeller`. -/
def buyoutSectionShown (a : Auction) (now : ℤ) (address : Option String) : Bool :=
  !isEnded a now && (a.status == "active") && jsTruthyQ a.buyout_price
    && !isSeller a address

/-- Embedding of the bid form section render guard:
`!isEnded && auction.status === 'active'`. -/
def bidFormSectionShown (a : Auction) (now : ℤ) : Bool :=
  !isEnded a now && (a.status == "active")

/-- The three mutually exclusive contents of the bid form section. -/
inductive BidPanel where
  | connectPrompt
  | ownAuctionNotice
  | form
  deriving DecidableEq

/-- Embedding of the branch inside the bid form section: connect prompt when
no wallet is connected, the you-cannot-bid-on-your-own-auction notice when
`isSeller`, otherwise the actual bid form. -/
def bidPanel (isConnected : Bool) (a : Auction) (address : Option String) : BidPanel :=
  if !isConnected then .connectPrompt
  else if isSeller a address then .ownAuctionNotice
  else .form

/-- Embedding of the awaiting-close banner render guard:
`isEnded && auction.status === 'active'` shows the message
"This auction has ended and is waiting to be closed". -/
def awaitingCloseShown (a : Auction) (now : ℤ) : Bool :=
  isEnded a now && (a.status == "active")

/-- Embedding of the status badge text:
`auction.status === 'active' ? (isEnded ? 'Time Ended' : 'Active') : auction.status`. -/
def statusBadgeText (a : Auction) (now : ℤ) : String :=
  if a.status == "active" then (if isEnded a now then "Time Ended" else "Active")
  else a.status

/-- Embedding of the native HTML constraint validation of the bid input
(`<input type="number" min={minBidAmount} required ...>` inside a form whose
submission runs `handlePlaceBid`): a missing value fails `required`, and a
value below the `min` attribute is a rangeUnderflow, so the browser blocks
form submission and the submit handler never runs. -/
def bidInputPassesNativeValidation (a : Auction) (amount : Option ℚ) : Bool :=
  match amount with
  | none => false
  | some v => decide (minBidAmount a ≤ v)

/-- Embedding of the validation sequence inside `handlePlaceBid`: reject when
no wallet is connected, when the amount is missing or nonpositive, or when it
is below `auction.min_price`; otherwise dispatch `placeBid`. -/
def handlerValidatesBid (isConnected : Bool) (a : Auction) (amount : Option ℚ) : Bool :=
  if !isConnected then false
  else
    match amount with
    | none => false
    | some v => if v ≤ 0 then false else if v < a.min_price then false else true

/-- A `placeBid` request is dispatched exactly when the native form
validation lets the form submit and `handlePlaceBid` passes its own checks. -/
def placeBidDispatched (isConnected : Bool) (a : Auction) (amount : Option ℚ) : Bool :=
  bidInputPassesNativeValidation a amount && handlerValidatesBid isConnected a amount

/-- Embedding of the highest-bid marker of the bid history rows:
`bid.bidder_id === auction.highest_bidder_id` (a bid row against a null
`highest_bidder_id` is never marked, since a number never strictly equals
null in JavaScript). -/
def bidMarkedHighest (b : Bid) (a : Auction) : Bool :=
  some b.bidder_id == a.highest_bidder_id

/-- Concrete auction from the claim scenario: min_price 0.05, current highest
bid 0.08, still running at the viewing instant used below. -/
def auctionC1 : Auction :=
  { id := 1, flag_id := 1, status := "active", starting_price := 1/20,
    min_price := 1/20, buyout_price := none,
    current_highest_bid := some (2/25), highest_bidder_id := some 2,
    ends_at := 1000000, seller := some { wallet_address := some "0xseller" },
    bids := [] }

/-- Concrete admin slice state carrying a stale error from an earlier
rejected authentication. -/
def adminStateC3 : AdminState :=
  { authenticated := false, adminKey := none, stats := none, countries := []
    ipfsStatus := none, loading := false, message := none,
    error := some "Invalid admin key" }

/-- Concrete flag with an incomplete pair and a single interest entry whose
joined user object is absent from the payload. -/
def flagC4 : Flag :=
  { is_pair_complete := false, first_nft_status := some "available",
    second_nft_status := some "available",
    interests := some [{ user := none }], ownerships := some [] }

/-- Concrete flag with an incomplete pair, no interests, and one ownership
entry whose user record carries no wallet address. -/
def flagC5 : Flag :=
  { is_pair_complete := false, first_nft_status := some "claimed",
    second_nft_status := some "claimed",
    interests := some [],
    ownerships := some [{ user := some { wallet_address := none },
                          ownership_type := some "first" }] }

/-- Concrete auction that is still reported active but whose end instant lies
one hour before the viewing instant 0. -/
def auctionC7 : Auction :=
  { id := 7, flag_id := 7, status := "active", starting_price := 1,
    min_price := 1, buyout_price := some 3,
    current_highest_bid := some 2, highest_bidder_id := some 5,
    ends_at := -3600000, seller := some { wallet_address := some "0xseller" },
    bids := [] }

/-- Concrete active, not yet ended auction with a buyout price, whose seller
wallet is 0xabc. -/
def auctionC8 : Auction :=
  { id := 8, flag_id := 8, status := "active", starting_price := 1,
    min_price := 1, buyout_price := some 5,
    current_highest_bid := none, highest_bidder_id := none,
    ends_at := 1000000, seller := some { wallet_address := some "0xabc" },
    bids := [] }

/-- Concrete active auction with no bid yet: current_highest_bid is absent. -/
def auctionC10 : Auction :=
  { id := 10, flag_id := 10, status := "active", starting_price := 3/2,
    min_price := 1, buyout_price := none,
    current_highest_bid := none, highest_bidder_id := none,
    ends_at := 1000000, seller := some { wallet_address := some "0xseller" },
    bids := [] }

/-- C1: the client-side bid gate — the native constraint validation of the
bid input (min attribute set to minBidAmount) composed with the checks of
handlePlaceBid — dispatches no placeBid request for any bid amount below
max(min_price, currentHighestBid + 0.001); the witness instantiates the
scenario min_price 0.05, current highest bid 0.08, bid exactly 0.08. -/
theorem C1_bid_below_computed_minimum_not_dispatched
    (a : Auction) (isConnected : Bool) (v : ℚ)
    (h : v < max a.min_price (currentHighestBid a + 1 / 1000)) :
    placeBidDispatched isConnected a (some v) = false := by
  have hn : ¬ minBidAmount a ≤ v := by
    unfold minBidAmount
    exact not_le.mpr h
  simp [placeBidDispatched, bidInputPassesNativeValidation, hn]

/-- C1 witness: with min_price 0.05 and current highest bid 0.08 the bound
is 0.081, and a submitted bid of exactly 0.08 dispatches no placeBid. -/
theorem C1_witness :
    (2 : ℚ)/25 < max auctionC1.min_price (currentHighestBid auctionC1 + 1/1000) ∧
    placeBidDispatched true auctionC1 (some ((2 : ℚ)/25)) = false := by
  have h : (2 : ℚ)/25 < max auctionC1.min_price (currentHighestBid auctionC1 + 1/1000) := by
    norm_num [auctionC1, currentHighestBid, jsOrQ]
  exact ⟨h, C1_bid_below_computed_minimum_not_dispatched auctionC1 true (2/25) h⟩

/-- C2: the claim fails on the code — the total price is computed by
`parseFloat(flag.price) * nftsRequired` in IEEE-754 binary64, not in decimal
arithmetic: for price 0.1 and 3 required NFTs the computed total is the
binary64 value 5404319552844596 * 2 ^ (-54) (which JavaScript displays as
0.30000000000000004), not the exact decimal 0.3; the spec example price 0.01
with n = 3 likewise differs from the exact 0.03. -/
theorem C2_total_price_uses_binary_floating_point :
    FlagCard.totalPrice 1 10 (some 3) = 5404319552844596 / 2 ^ 54 ∧
    FlagCard.totalPrice 1 10 (some 3) ≠ computeTotalSpec (1/10) 3 ∧
    FlagDetail.totalBasePrice 1 100 (some 3) ≠ computeTotalSpec (1/100) 3 := by
  have h1 : FP.jsMulPosNat (FP.parseFloatPos 1 10) (jsOrNat (some 3) 1)
      = (5404319552844596, -54) := by decide
  have h2 : FP.jsMulPosNat (FP.parseFloatPos 1 100) (jsOrNat (some 3) 1)
      = (8646911284551352, -58) := by decide
  have e1 : FlagCard.totalPrice 1 10 (some 3) = 5404319552844596 / 2 ^ 54 := by
    unfold FlagCard.totalPrice
    rw [h1]
    unfold FP.ratOfPair FP.qpow2
    norm_num [show ((54 : ℤ)).toNat = 54 from rfl]
  refine ⟨e1, ?_, ?_⟩
  · rw [e1]
    unfold computeTotalSpec
    norm_num
  · unfold FlagDetail.totalBasePrice
    rw [h2]
    unfold FP.ratOfPair FP.qpow2 computeTotalSpec
    norm_num [show ((58 : ℤ)).toNat = 58 from rfl]

/-- C3 counterexample: dispatching seedDemoData.pending on a state carrying a
prior error sets loading without clearing the error, so loading and a stale
error are simultaneously active — refuting the claim that every pending
reducer of the admin slice clears the prior error. -/
theorem C3_counterexample_pending_keeps_error :
    (seedDemoDataPending adminStateC3).loading = true ∧
    (seedDemoDataPending adminStateC3).error = some "Invalid admin key" :=
  ⟨rfl, rfl⟩

/-- C3 amended: authenticate.pending clears the prior error, but
seedDemoData.pending and syncIpfsFromPinata.pending clear only the prior
message and leave the error field untouched while setting loading. -/
theorem C3_amended_pending_reducers (s : AdminState) :
    (authenticatePending s).loading = true ∧
    (authenticatePending s).error = none ∧
    (seedDemoDataPending s).loading = true ∧
    (seedDemoDataPending s).message = none ∧
    (seedDemoDataPending s).error = s.error ∧
    (syncIpfsFromPinataPending s).loading = true ∧
    (syncIpfsFromPinataPending s).message = none ∧
    (syncIpfsFromPinataPending s).error = s.error :=
  ⟨rfl, rfl, rfl, rfl, rfl, rfl, rfl, rfl⟩

/-- C4: the code refutes the claim — with no connected wallet (null viewer)
and an incomplete pair, isRevealed still returns true when an interest entry
lacks its joined user record, because the optional chains on both sides of
the strict equality collapse to undefined and undefined === undefined holds;
the claim requires false for every contents of the lists. -/
theorem C4_null_viewer_revealed_by_absent_entry :
    flagC4.is_pair_complete = false ∧ isRevealed flagC4 none = true :=
  ⟨rfl, by decide⟩

/-- Helper: the reveal gate in propositional form — revealed exactly when the
pair is complete or some interest/ownership entry matches the viewer under
the optional-chained lower-cased comparison. -/
theorem isRevealed_eq_true_iff (f : Flag) (address : Option String) :
    isRevealed f address = true ↔
      (f.is_pair_complete = true ∨
        (∃ i ∈ f.interests.getD [], chainWalletLower i.user = optLower address) ∨
        (∃ o ∈ f.ownerships.getD [], chainWalletLower o.user = optLower address)) := by
  unfold isRevealed
  cases hpc : f.is_pair_complete <;>
    cases hi : (f.interests.getD []).any
      (fun i => chainWalletLower i.user == optLower address) <;>
    cases ho : (f.ownerships.getD []).any
      (fun o => chainWalletLower o.user == optLower address) <;>
    simp only [List.any_eq_true, List.any_eq_false, beq_iff_eq, bne_iff_ne] at hi ho <;>
    simp [hi, ho]
  all_goals exact ⟨hi, ho⟩

/-- C5 counterexample: an incomplete-pair flag whose single ownership entry
carries a user without a wallet address is reported revealed to the null
viewer, although the claim requires isRevealed to be true only when the pair
is complete or the viewer is non-null and matches an entry. -/
theorem C5_counterexample_null_viewer_ownership :
    flagC5.is_pair_complete = false ∧ isRevealed flagC5 none = true :=
  ⟨rfl, by decide⟩

/-- C5 amended: for a non-null viewer the gate is exactly case-insensitive
membership of the viewer wallet among the present entry wallet addresses (or
pair completion); for the null viewer, however, the gate also fires on any
entry whose user or wallet_address is absent, because both optional chains
collapse to undefined and undefined === undefined holds. -/
theorem C5_amended_reveal_characterization (f : Flag) (w : String) :
    (isRevealed f (some w) = true ↔
      (f.is_pair_complete = true ∨
        (∃ i ∈ f.interests.getD [], chainWalletLower i.user = some w.toLower) ∨
        (∃ o ∈ f.ownerships.getD [], chainWalletLower o.user = some w.toLower))) ∧
    (isRevealed f none = true ↔
      (f.is_pair_complete = true ∨
        (∃ i ∈ f.interests.getD [], chainWalletLower i.user = none) ∨
        (∃ o ∈ f.ownerships.getD [], chainWalletLower o.user = none))) := by
  constructor
  · simpa [optLower] using isRevealed_eq_true_iff f (some w)
  · simpa [optLower] using isRevealed_eq_true_iff f none

/-- C6: the acquisition state table of the spec is realized exactly by the
action gating of the detail pages: the complete notice, the
show-interest/claim-first set and the purchase-second button are rendered
precisely in states COMPLETE, FIRST_OPEN and SECOND_OPEN respectively, the
two action sets are never rendered together, and BLOCKED renders nothing;
the state assignment is a total function, so no combination throws. -/
theorem C6_acquisition_states_match_action_sets (f : Flag) :
    (showsPairCompleteNotice f = true ↔
      specAcqState f.is_pair_complete f.first_nft_status f.second_nft_status
        = AcqState.COMPLETE) ∧
    (showsFirstActionSet f = true ↔
      specAcqState f.is_pair_complete f.first_nft_status f.second_nft_status
        = AcqState.FIRST_OPEN) ∧
    (showsPurchaseSecond f = true ↔
      specAcqState f.is_pair_complete f.first_nft_status f.second_nft_status
        = AcqState.SECOND_OPEN) ∧
    ((showsFirstActionSet f && showsPurchaseSecond f) = false) ∧
    (specAcqState f.is_pair_complete f.first_nft_status f.second_nft_status
        = AcqState.BLOCKED ↔
      (showsPairCompleteNotice f = false ∧ showsFirstActionSet f = false ∧
        showsPurchaseSecond f = false)) := by
  unfold specAcqState showsPairCompleteNotice showsFirstActionSet showsPurchaseSecond
  cases hpc : f.is_pair_complete <;>
    by_cases h1 : f.first_nft_status = some "available" <;>
    by_cases h2 : f.first_nft_status = some "claimed" <;>
    by_cases h3 : f.second_nft_status = some "available" <;>
    simp_all [h1, h2, h3]

/-- C7: an auction still reported active whose end instant has passed renders
the time-ended state: the bid form section and the buyout section are both
absent, the awaiting-close banner is shown, and the status badge reads Time
Ended rather than a terminal status. -/
theorem C7_time_ended_renders_awaiting_close (a : Auction) (now : ℤ)
    (address : Option String) (hs : a.status = "active") (ht : a.ends_at ≤ now) :
    bidFormSectionShown a now = false ∧
    buyoutSectionShown a now address = false ∧
    awaitingCloseShown a now = true ∧
    statusBadgeText a now = "Time Ended" := by
  have he : isEnded a now = true := by
    unfold isEnded timeRemaining
    have hz : a.ends_at - now ≤ 0 := by omega
    simp [hz]
  refine ⟨?_, ?_, ?_, ?_⟩ <;>
    simp [bidFormSectionShown, buyoutSectionShown, awaitingCloseShown,
      statusBadgeText, he, hs]

/-- C7 witness: an active auction that ended one hour before the viewing
instant shows only the awaiting-close state. -/
theorem C7_witness :
    bidFormSectionShown auctionC7 0 = false ∧
    buyoutSectionShown auctionC7 0 none = false ∧
    awaitingCloseShown auctionC7 0 = true ∧
    statusBadgeText auctionC7 0 = "Time Ended" :=
  C7_time_ended_renders_awaiting_close auctionC7 0 none rfl (by decide)

/-- C8: on an active, not yet ended auction, the buyout section is absent
whenever buyout_price is absent, and for a viewer whose wallet address
equals the seller wallet address up to case, both the buyout section and the
bid form are withheld (the bid panel shows the own-auction notice instead),
even when buyout_price is present. -/
theorem C8_buyout_and_bid_withheld_from_seller (a : Auction) (now : ℤ)
    (_hs : a.status = "active") (_ht : now < a.ends_at) :
    (a.buyout_price = none → ∀ address, buyoutSectionShown a now address = false) ∧
    (∀ w s, a.seller = some { wallet_address := some s } → w.toLower = s.toLower →
      buyoutSectionShown a now (some w) = false ∧
      bidPanel true a (some w) = BidPanel.ownAuctionNotice) := by
  constructor
  · intro hb address
    simp [buyoutSectionShown, hb, jsTruthyQ]
  · intro w s hsel hlow
    have hsell : isSeller a (some w) = true := by
      unfold isSeller optLower
      rw [hsel]
      simp [hlow]
    constructor
    · simp [buyoutSectionShown, hsell]
    · simp [bidPanel, hsell]

/-- C8 witness: the seller of an active auction with a buyout price sees
neither the buyout section nor the bid form. -/
theorem C8_witness :
    buyoutSectionShown auctionC8 0 (some "0xabc") = false ∧
    bidPanel true auctionC8 (some "0xabc") = BidPanel.ownAuctionNotice :=
  (C8_buyout_and_bid_withheld_from_seller auctionC8 0 rfl (by decide)).2
    "0xabc" "0xabc" rfl rfl

/-- C9: a bid history row is marked as the highest bid exactly when its
bidder_id equals the server-reported highest_bidder_id, and the marking is
invariant under changing the amount and bidder_category of the row, so it
never depends on a client-side comparison of amounts or category ranks. -/
theorem C9_highest_marker_is_server_id_only (b : Bid) (a : Auction) (x : ℚ)
    (c : Option String) :
    (bidMarkedHighest b a = true ↔ a.highest_bidder_id = some b.bidder_id) ∧
    bidMarkedHighest { b with amount := x, bidder_category := c } a
      = bidMarkedHighest b a := by
  refine ⟨?_, rfl⟩
  unfold bidMarkedHighest
  rw [beq_iff_eq]
  exact eq_comm

/-- C10: when current_highest_bid is absent, both the detail page and the
list card hand starting_price to the price formatter as the current bid, and
the computed minimum acceptable next bid is
max(min_price, starting_price + 0.001). -/
theorem C10_starting_price_substitutes_for_absent_bid (a : Auction)
    (h : a.current_highest_bid = none) :
    currentHighestBid a = a.starting_price ∧
    auctionCardCurrentBid a = a.starting_price ∧
    minBidAmount a = max a.min_price (a.starting_price + 1/1000) := by
  simp [currentHighestBid, auctionCardCurrentBid, minBidAmount, jsOrQ, h]

/-- C10 witness: an auction with no bids shows its starting price 1.5 as the
current bid and computes the minimum next bid from it. -/
theorem C10_witness :
    currentHighestBid auctionC10 = auctionC10.starting_price ∧
    auctionCardCurrentBid auctionC10 = auctionC10.starting_price ∧
    minBidAmount auctionC10
      = max auctionC10.min_price (auctionC10.starting_price + 1/1000) :=
  C10_starting_price_substitutes_for_absent_bid auctionC10 rfl

end NFTFlags
